import Mathlib

/-!
Shallow embedding of src/Ocean.js (tingyutian/Ocean_Scene_Webflow): a three.js
ocean scene. The source file holds the production module (module globals,
init, render loop, pointer and resize handlers, GLTF load callbacks) and a
React variant of the same logic whose useEffect cleanup removes the two
listeners and disposes the renderer. Engine internals (shaders, tone mapping,
pixel ratio, GPU buffers) are an external black box; the state below tracks
exactly the fields the embedded handlers read and write. JS numbers are
modelled as real numbers.
-/

namespace Ocean

/-- Scene-graph nodes that src/Ocean.js ever passes to scene.add: the water
plane, the sky dome, and the asynchronously loaded GLTF model root. -/
inductive Node where
  | water
  | sky
  | model
deriving DecidableEq, Repr

/-- Transform of the loaded model root: position, rotation and scale
components, as mutated by the GLTF success callback and by render. -/
structure ModelTransform where
  posX : ℝ
  posY : ℝ
  posZ : ℝ
  rotX : ℝ
  rotY : ℝ
  rotZ : ℝ
  scaleX : ℝ
  scaleY : ℝ
  scaleZ : ℝ

/-- Host container element: the content-box dimensions read by init and by
the resize handler. -/
structure Container where
  clientWidth : ℝ
  clientHeight : ℝ

/-- Module-level mutable state of src/Ocean.js: the globals declared at the
top of the file (camera, renderer, water, modelT, mouseX, windowHalfX)
together with the observable effects the claims are about (registered
listener counts, console error log, frames rendered). Boolean created and
disposed flags stand for the engine handles the code only tests for
existence. -/
structure Globals where
  mouseX : ℝ
  windowHalfX : ℝ
  rendererCreated : Bool
  rendererDisposed : Bool
  rendererWidth : ℝ
  rendererHeight : ℝ
  cameraCreated : Bool
  cameraAspect : ℝ
  cameraX : ℝ
  cameraY : ℝ
  cameraZ : ℝ
  lookAtX : ℝ
  lookAtY : ℝ
  lookAtZ : ℝ
  sceneChildren : List Node
  waterTime : ℝ
  modelT : Option ModelTransform
  mousemoveListeners : Nat
  resizeListeners : Nat
  errorLog : List String
  framesRendered : Nat

/-- State at module load: let mouseX = 0 and
const windowHalfX = window.innerWidth / 2, sampled once from the window
inner width at load time; nothing created yet. -/
noncomputable def initialGlobals (innerWidth : ℝ) : Globals :=
  { mouseX := 0
    windowHalfX := innerWidth / 2
    rendererCreated := false
    rendererDisposed := false
    rendererWidth := 0
    rendererHeight := 0
    cameraCreated := false
    cameraAspect := 0
    cameraX := 0
    cameraY := 0
    cameraZ := 0
    lookAtX := 0
    lookAtY := 0
    lookAtZ := 0
    sceneChildren := []
    waterTime := 0
    modelT := none
    mousemoveListeners := 0
    resizeListeners := 0
    errorLog := []
    framesRendered := 0 }

/-- Error string logged by init when the container lookup fails. -/
def missingContainerMsg : String :=
  "No container element with id \"three\" found."

/-- Scene.add of the three.js Object3D: a child already in the graph is
first removed from its parent, then appended, so adding is append with
deduplication. -/
def sceneAdd (n : Node) (children : List Node) : List Node :=
  (children.filter (fun m => m ≠ n)) ++ [n]

/-- Embedding of init (src/Ocean.js lines 18 to 144). A missing container
only logs an error and returns. Otherwise the renderer is created and sized
to the container, the camera is created at (30, 30, 120) with the container
aspect ratio, water and sky are added to the scene (the water time uniform
starts at zero), the GLTF load is started, and the mousemove and resize
listeners are registered. Engine-side configuration (tone mapping, pixel
ratio, water shader options, sky uniforms) has no observable effect on the
claims and is not tracked. -/
noncomputable def init (container : Option Container) (g : Globals) : Globals :=
  match container with
  | none =>
      { g with errorLog := g.errorLog ++ [missingContainerMsg] }
  | some c =>
      { g with
        rendererCreated := true
        rendererDisposed := false
        rendererWidth := c.clientWidth
        rendererHeight := c.clientHeight
        cameraCreated := true
        cameraAspect := c.clientWidth / c.clientHeight
        cameraX := 30
        cameraY := 30
        cameraZ := 120
        sceneChildren := sceneAdd Node.sky (sceneAdd Node.water g.sceneChildren)
        waterTime := 0
        mousemoveListeners := g.mousemoveListeners + 1
        resizeListeners := g.resizeListeners + 1 }

/-- Embedding of the GLTF success callback (src/Ocean.js lines 127 to 132):
store gltf.scene in modelT, set its position to the origin and its scale to
(20, 20, 20) — rotation is left as loaded — and add it to the scene. The
callback performs no liveness check. -/
def gltfOnLoad (loaded : ModelTransform) (g : Globals) : Globals :=
  { g with
    modelT := some { loaded with
      posX := 0
      posY := 0
      posZ := 0
      scaleX := 20
      scaleY := 20
      scaleZ := 20 }
    sceneChildren := sceneAdd Node.model g.sceneChildren }

/-- Embedding of the GLTF error callback (src/Ocean.js lines 136 to 138):
console.error only; nothing else changes and no retry is issued. -/
def gltfOnError (msg : String) (g : Globals) : Globals :=
  { g with errorLog := g.errorLog ++ ["Error loading GLTF model: " ++ msg] }

/-- Embedding of render (src/Ocean.js lines 152 to 173) at sampled time t:
exponential camera follow toward mouseX * 0.015 with factor 0.05, lookAt at
the fixed point (0, 16, 0), model motion only when modelT is set
(posY = sin t * 20 + 5, rotZ = t * 0.5, rotY = t * 0.51, rotX = t * 0.51),
water time uniform advanced by 1 / 40, then one renderer.render call. -/
noncomputable def render (t : ℝ) (g : Globals) : Globals :=
  { g with
    cameraX := g.cameraX + (g.mouseX * 0.015 - g.cameraX) * 0.05
    lookAtX := 0
    lookAtY := 16
    lookAtZ := 0
    modelT :=
      match g.modelT with
      | none => none
      | some m => some { m with
          posY := Real.sin t * 20 + 5
          rotZ := t * 0.5
          rotY := t * 0.51
          rotX := t * 0.51 }
    waterTime := g.waterTime + 1 / 40
    framesRendered := g.framesRendered + 1 }

/-- Embedding of onDocumentMouseMove (src/Ocean.js lines 176 to 178):
mouseX = (event.clientX - windowHalfX) * 2. -/
noncomputable def onDocumentMouseMove (clientX : ℝ) (g : Globals) : Globals :=
  { g with mouseX := (clientX - g.windowHalfX) * 2 }

/-- Embedding of onWindowResize (src/Ocean.js lines 181 to 187): re-read the
container; when present, update the camera aspect and renderer size to the
container content box. The windowHalfX constant is not touched. -/
noncomputable def onWindowResize (container : Option Container) (g : Globals) : Globals :=
  match container with
  | none => g
  | some c =>
      { g with
        cameraAspect := c.clientWidth / c.clientHeight
        rendererWidth := c.clientWidth
        rendererHeight := c.clientHeight }

/-- Embedding of the React useEffect cleanup (src/Ocean.js lines 395 to
420): remove the mousemove and resize listeners, then dispose the renderer
when one exists and dispose reachable geometries and materials. The cleanup
does not clear modelT, does not detach scene children, and sets no liveness
flag for the still-pending GLTF callbacks. -/
def cleanup (g : Globals) : Globals :=
  { g with
    mousemoveListeners := g.mousemoveListeners - 1
    resizeListeners := g.resizeListeners - 1
    rendererDisposed := if g.rendererCreated then true else g.rendererDisposed }

/-- Sequence of render calls, one per animation frame, each with the time
sampled in that frame. -/
noncomputable def renderFrames (times : List ℝ) (g : Globals) : Globals :=
  times.foldl (fun s t => render t s) g

/-- Events a live session can observe between mount and unmount. -/
inductive OceanEvent where
  | mousemove (clientX : ℝ)
  | resize (container : Option Container)
  | frame (t : ℝ)
  | gltfLoaded (loaded : ModelTransform)
  | gltfFailed (msg : String)

/-- Dispatch of one event to the corresponding handler of src/Ocean.js. -/
noncomputable def step (e : OceanEvent) (g : Globals) : Globals :=
  match e with
  | .mousemove clientX => onDocumentMouseMove clientX g
  | .resize c => onWindowResize c g
  | .frame t => render t g
  | .gltfLoaded loaded => gltfOnLoad loaded g
  | .gltfFailed msg => gltfOnError msg g

/-- Run of an event trace from a given state. -/
noncomputable def run (evs : List OceanEvent) (g : Globals) : Globals :=
  evs.foldl (fun s e => step e s) g

/-! Helper lemmas about single steps and folded runs. -/

lemma renderFrames_nil (g : Globals) : renderFrames [] g = g := rfl

lemma renderFrames_cons (t : ℝ) (ts : List ℝ) (g : Globals) :
    renderFrames (t :: ts) g = renderFrames ts (render t g) := rfl

lemma render_mouseX (t : ℝ) (g : Globals) : (render t g).mouseX = g.mouseX := rfl

lemma render_waterTime (t : ℝ) (g : Globals) :
    (render t g).waterTime = g.waterTime + 1 / 40 := rfl

lemma render_framesRendered (t : ℝ) (g : Globals) :
    (render t g).framesRendered = g.framesRendered + 1 := rfl

lemma render_cameraX (t : ℝ) (g : Globals) :
    (render t g).cameraX = g.cameraX + (g.mouseX * 0.015 - g.cameraX) * 0.05 := rfl

lemma render_modelT_none (t : ℝ) (g : Globals) (h : g.modelT = none) :
    (render t g).modelT = none := by
  simp [render, h]

lemma renderFrames_waterTime (ts : List ℝ) (g : Globals) :
    (renderFrames ts g).waterTime = g.waterTime + ts.length * (1 / 40) := by
  induction ts generalizing g with
  | nil => simp [renderFrames_nil]
  | cons t ts ih =>
      rw [renderFrames_cons, ih, render_waterTime, List.length_cons]
      push_cast
      ring

lemma renderFrames_framesRendered (ts : List ℝ) (g : Globals) :
    (renderFrames ts g).framesRendered = g.framesRendered + ts.length := by
  induction ts generalizing g with
  | nil => simp [renderFrames_nil]
  | cons t ts ih =>
      rw [renderFrames_cons, ih, render_framesRendered, List.length_cons]
      omega

lemma renderFrames_modelT_none (ts : List ℝ) (g : Globals) (h : g.modelT = none) :
    (renderFrames ts g).modelT = none := by
  induction ts generalizing g with
  | nil => rw [renderFrames_nil]; exact h
  | cons t ts ih =>
      rw [renderFrames_cons]
      exact ih (render t g) (render_modelT_none t g h)

lemma render_cameraX_dist (t : ℝ) (g : Globals) :
    |(render t g).cameraX - g.mouseX * 0.015| =
      |g.cameraX - g.mouseX * 0.015| * 0.95 := by
  rw [render_cameraX]
  have h : g.cameraX + (g.mouseX * 0.015 - g.cameraX) * 0.05 - g.mouseX * 0.015
      = (g.cameraX - g.mouseX * 0.015) * 0.95 := by ring
  rw [h, abs_mul, abs_of_pos (by norm_num : (0:ℝ) < 0.95)]

lemma renderFrames_cameraX_dist (ts : List ℝ) (g : Globals) :
    |(renderFrames ts g).cameraX - g.mouseX * 0.015| =
      |g.cameraX - g.mouseX * 0.015| * 0.95 ^ ts.length := by
  induction ts generalizing g with
  | nil => simp [renderFrames_nil]
  | cons t ts ih =>
      rw [renderFrames_cons]
      have h1 := ih (render t g)
      rw [render_mouseX] at h1
      rw [h1, render_cameraX_dist, List.length_cons, pow_succ]
      ring

lemma init_waterTime_zero (c : Container) (w : ℝ) :
    (init (some c) (initialGlobals w)).waterTime = 0 := rfl

/-! Claim theorems. -/

/-- C1: for every frame count N and arbitrary per-frame sampled times, each
render call adds exactly 1 / 40 to the water time uniform, whatever the
state of the model slot, so after N frames the uniform has grown by
N * (1 / 40); from a fresh init, whose water time starts at zero, it equals
N / 40 exactly, independent of the sampled wall-clock times. -/
theorem waterPhase_after_frames (ts : List ℝ) (g : Globals) (c : Container) (w : ℝ) :
    (renderFrames ts g).waterTime = g.waterTime + ts.length * (1 / 40) ∧
    (renderFrames ts (init (some c) (initialGlobals w))).waterTime = ts.length / 40 := by
  refine ⟨renderFrames_waterTime ts g, ?_⟩
  rw [renderFrames_waterTime, init_waterTime_zero]
  ring

/-- C3: with the pointer offset held fixed (no mousemove event fires during
the frames), the distance from the camera horizontal position to the target
mouseX * 0.015 contracts by exactly the factor 0.95 at each frame, because
render performs cameraX += (mouseX * 0.015 - cameraX) * 0.05; after k frames
the distance is the initial distance times 0.95 ^ k. -/
theorem cameraX_geometric_convergence (ts : List ℝ) (g : Globals) :
    |(renderFrames ts g).cameraX - g.mouseX * 0.015| =
      |g.cameraX - g.mouseX * 0.015| * 0.95 ^ ts.length :=
  renderFrames_cameraX_dist ts g

/-- C2: in any frame with sampled time t, when the model slot is populated
render writes posY = sin t * 20 + 5 and the rotation angles
rotZ = t * 0.5, rotY = t * 0.51, rotX = t * 0.51, leaving the other
transform components alone; when the slot is empty the slot stays empty and
no model transform is written. -/
theorem modelMotion_per_frame (t : ℝ) (g : Globals) :
    (∀ m, g.modelT = some m →
      (render t g).modelT = some { m with
        posY := Real.sin t * 20 + 5
        rotZ := t * 0.5
        rotY := t * 0.51
        rotX := t * 0.51 }) ∧
    (g.modelT = none → (render t g).modelT = none) := by
  constructor
  · intro m hm
    simp [render, hm]
  · intro hm
    simp [render, hm]

/-- Model transform used to instantiate theorems at a concrete input. -/
def sampleModel : ModelTransform :=
  ⟨0, 0, 0, 0, 0, 0, 1, 1, 1⟩

/-- Concrete state with a populated model slot. -/
noncomputable def sampleLoadedGlobals : Globals :=
  { initialGlobals 0 with modelT := some sampleModel }

/-- Witness for C2 at time 1 on a concrete populated state. -/
theorem modelMotion_per_frame_witness :
    sampleLoadedGlobals.modelT = some sampleModel ∧
    (render 1 sampleLoadedGlobals).modelT = some { sampleModel with
      posY := Real.sin 1 * 20 + 5
      rotZ := 1 * 0.5
      rotY := 1 * 0.51
      rotX := 1 * 0.51 } :=
  ⟨rfl, (modelMotion_per_frame 1 sampleLoadedGlobals).1 sampleModel rfl⟩

/-- C4: the GLTF success callback has no liveness check. After the useEffect
cleanup has run (renderer disposed, scene children still water and sky), the
late-firing callback still stores the model and attaches it to the
torn-down scene graph, contradicting the required no-op behavior. -/
theorem gltfCallback_after_cleanup_attaches (w : ℝ) (c : Container)
    (loaded : ModelTransform) :
    (cleanup (init (some c) (initialGlobals w))).rendererDisposed = true ∧
    (cleanup (init (some c) (initialGlobals w))).sceneChildren
      = [Node.water, Node.sky] ∧
    (gltfOnLoad loaded (cleanup (init (some c) (initialGlobals w)))).sceneChildren
      = [Node.water, Node.sky, Node.model] ∧
    (gltfOnLoad loaded (cleanup (init (some c) (initialGlobals w)))).modelT
      = some { loaded with
          posX := 0
          posY := 0
          posZ := 0
          scaleX := 20
          scaleY := 20
          scaleZ := 20 } := by
  refine ⟨rfl, ?_, ?_, rfl⟩
  · simp [cleanup, init, initialGlobals, sceneAdd]
  · simp [gltfOnLoad, cleanup, init, initialGlobals, sceneAdd]

/-- C5: when the container lookup fails, init only appends one error line to
the log and changes nothing else, so from the module-load state there is
still no renderer, no camera, an empty scene, no listeners and no partial
session of any kind. -/
theorem missingContainer_aborts (g : Globals) (w : ℝ) :
    init none g = { g with errorLog := g.errorLog ++ [missingContainerMsg] } ∧
    (init none (initialGlobals w)).rendererCreated = false ∧
    (init none (initialGlobals w)).cameraCreated = false ∧
    (init none (initialGlobals w)).sceneChildren = [] ∧
    (init none (initialGlobals w)).modelT = none ∧
    (init none (initialGlobals w)).mousemoveListeners = 0 ∧
    (init none (initialGlobals w)).resizeListeners = 0 ∧
    (init none (initialGlobals w)).errorLog = [missingContainerMsg] := by
  refine ⟨rfl, rfl, rfl, rfl, rfl, rfl, rfl, ?_⟩
  simp [init, initialGlobals]

/-- C6: a model-load failure only appends one error line — no retry, no
other state change — and with the slot left empty any number of later
frames still render: the slot stays empty for good, the frame counter and
the water time uniform keep advancing, and the per-frame function stays
total on the modelless state. -/
theorem modelLoadFailure_tolerated (msg : String) (ts : List ℝ) (g : Globals)
    (h : g.modelT = none) :
    gltfOnError msg g
      = { g with errorLog := g.errorLog ++ ["Error loading GLTF model: " ++ msg] } ∧
    (renderFrames ts (gltfOnError msg g)).modelT = none ∧
    (renderFrames ts (gltfOnError msg g)).framesRendered
      = g.framesRendered + ts.length ∧
    (renderFrames ts (gltfOnError msg g)).waterTime
      = g.waterTime + ts.length * (1 / 40) := by
  refine ⟨rfl, ?_, ?_, ?_⟩
  · exact renderFrames_modelT_none ts _ h
  · rw [renderFrames_framesRendered]; rfl
  · rw [renderFrames_waterTime]; rfl

/-- Witness for C6: one failed load on the fresh module state, then one
frame; the slot is still empty. -/
theorem modelLoadFailure_tolerated_witness :
    (initialGlobals 0).modelT = none ∧
    (renderFrames [1] (gltfOnError "network" (initialGlobals 0))).modelT = none :=
  ⟨rfl, (modelLoadFailure_tolerated "network" [1] (initialGlobals 0) rfl).2.1⟩

/-- C7 counterexample: with the window inner width 100 (so windowHalfX is
50) and a pointer event at clientX = 100, the handler stores
(100 - 50) * 2 = 100, not the raw offset 100 - 50 = 50: the stored scalar
is not clientX minus the half width. -/
theorem pointerOffset_counterexample :
    (onDocumentMouseMove 100 (initialGlobals 100)).mouseX
      ≠ 100 - (initialGlobals 100).windowHalfX := by
  simp only [onDocumentMouseMove, initialGlobals]
  norm_num

/-- C7 amended: the pointer-move handler stores twice the horizontal offset
of the event from the initial view center, mouseX = (clientX -
windowHalfX) * 2, and no other operation of the module — init, render,
resize, the GLTF callbacks, cleanup — ever mutates that scalar. -/
theorem pointerOffset_doubled (clientX t w : ℝ) (g : Globals)
    (c c2 : Option Container) (msg : String) (loaded : ModelTransform) :
    (onDocumentMouseMove clientX g).mouseX = (clientX - g.windowHalfX) * 2 ∧
    (initialGlobals w).mouseX = 0 ∧
    (init c g).mouseX = g.mouseX ∧
    (render t g).mouseX = g.mouseX ∧
    (onWindowResize c2 g).mouseX = g.mouseX ∧
    (gltfOnLoad loaded g).mouseX = g.mouseX ∧
    (gltfOnError msg g).mouseX = g.mouseX ∧
    (cleanup g).mouseX = g.mouseX := by
  refine ⟨rfl, rfl, ?_, rfl, ?_, rfl, rfl, rfl⟩
  · cases c <;> rfl
  · cases c2 <;> rfl

/-- C8: cleanup removes exactly the mousemove and resize listeners that init
registered, so mount, unmount, mount on the same container leaves exactly
one mousemove and one resize listener active, and every function in the
sequence is total (nothing throws). -/
theorem stopStart_listener_counts (w : ℝ) (c : Container) :
    (init (some c) (cleanup (init (some c) (initialGlobals w)))).mousemoveListeners
      = 1 ∧
    (init (some c) (cleanup (init (some c) (initialGlobals w)))).resizeListeners
      = 1 :=
  ⟨rfl, rfl⟩

lemma step_windowHalfX (e : OceanEvent) (g : Globals) :
    (step e g).windowHalfX = g.windowHalfX := by
  cases e with
  | mousemove clientX => rfl
  | resize c => cases c <;> rfl
  | frame t => rfl
  | gltfLoaded loaded => rfl
  | gltfFailed msg => rfl

lemma run_nil (g : Globals) : run [] g = g := rfl

lemma run_cons (e : OceanEvent) (evs : List OceanEvent) (g : Globals) :
    run (e :: evs) g = run evs (step e g) := rfl

lemma run_windowHalfX (evs : List OceanEvent) (g : Globals) :
    (run evs g).windowHalfX = g.windowHalfX := by
  induction evs generalizing g with
  | nil => rfl
  | cons e evs ih => rw [run_cons, ih, step_windowHalfX]

lemma init_windowHalfX (c : Option Container) (g : Globals) :
    (init c g).windowHalfX = g.windowHalfX := by
  cases c <;> rfl

/-- C10: windowHalfX is computed exactly once, at module load, as half the
window inner width, and no handler ever rewrites it — init, every frame,
every resize, the GLTF callbacks and every pointer event leave it fixed —
so after an arbitrary event trace a pointer-move at clientX still stores
(clientX - w / 2) * 2 relative to the initial window center. -/
theorem pointerCenter_sampled_once (w clientX : ℝ) (evs : List OceanEvent)
    (c : Option Container) :
    (run evs (init c (initialGlobals w))).windowHalfX = w / 2 ∧
    (onDocumentMouseMove clientX (run evs (init c (initialGlobals w)))).mouseX
      = (clientX - w / 2) * 2 := by
  have h : (run evs (init c (initialGlobals w))).windowHalfX = w / 2 := by
    rw [run_windowHalfX, init_windowHalfX]; rfl
  refine ⟨h, ?_⟩
  show (clientX - (run evs (init c (initialGlobals w))).windowHalfX) * 2 = _
  rw [h]

/-! Embedding of updateSun (src/Ocean.js lines 106 to 121) and the three.js
vector operations it uses. -/

/-- Three-component vector, as used for the sun direction. -/
structure Vec3 where
  x : ℝ
  y : ℝ
  z : ℝ

/-- THREE.MathUtils.degToRad: degrees times pi over 180. -/
noncomputable def degToRad (deg : ℝ) : ℝ :=
  deg * (Real.pi / 180)

/-- Vector3.setFromSphericalCoords of three.js: x = r sin(phi) sin(theta),
y = r cos(phi), z = r sin(phi) cos(theta). -/
noncomputable def setFromSphericalCoords (radius phi theta : ℝ) : Vec3 :=
  { x := Real.sin phi * radius * Real.sin theta
    y := Real.cos phi * radius
    z := Real.sin phi * radius * Real.cos theta }

/-- Squared Euclidean length of a vector. -/
noncomputable def normSq (v : Vec3) : ℝ :=
  v.x * v.x + v.y * v.y + v.z * v.z

/-- Vector3.normalize of three.js: divide by the length, or by 1 when the
length is zero. -/
noncomputable def normalize (v : Vec3) : Vec3 :=
  let l := Real.sqrt (normSq v)
  if l = 0 then v else { x := v.x / l, y := v.y / l, z := v.z / l }

/-- State touched by updateSun: the sun vector global, the sunPosition
uniform of the sky material, the sunDirection uniform of the water
material, and the PMREM render target currently installed as the scene
environment. Render targets are tracked by identifier so a dispose can be
observed; nextTargetId names the target the next pmremGenerator.fromScene
call returns. -/
structure SunUpdateState where
  sun : Vec3
  skySunPosition : Vec3
  waterSunDirection : Vec3
  renderTarget : Option Nat
  disposedTargets : List Nat
  nextTargetId : Nat
  sceneEnvironment : Option Nat

/-- Embedding of updateSun: phi = degToRad (90 - 2), theta = degToRad 180,
sun.setFromSphericalCoords(1, phi, theta), copy sun into the sky
sunPosition uniform, copy and normalize it into the water sunDirection
uniform, dispose the previous render target when one exists, bake a new one
from the sky scene and install its texture as the scene environment. -/
noncomputable def updateSun (s : SunUpdateState) : SunUpdateState :=
  let phi := degToRad (90 - 2)
  let theta := degToRad 180
  let sunNew := setFromSphericalCoords 1 phi theta
  let disposedNew :=
    match s.renderTarget with
    | some rt => rt :: s.disposedTargets
    | none => s.disposedTargets
  { sun := sunNew
    skySunPosition := sunNew
    waterSunDirection := normalize sunNew
    renderTarget := some s.nextTargetId
    disposedTargets := disposedNew
    nextTargetId := s.nextTargetId + 1
    sceneEnvironment := some s.nextTargetId }

lemma normSq_setFromSphericalCoords_one (phi theta : ℝ) :
    normSq (setFromSphericalCoords 1 phi theta) = 1 := by
  have h1 := Real.sin_sq_add_cos_sq theta
  have h2 := Real.sin_sq_add_cos_sq phi
  simp only [normSq, setFromSphericalCoords]
  nlinarith [h1, h2]

lemma normalize_of_normSq_one (v : Vec3) (h : normSq v = 1) : normalize v = v := by
  simp only [normalize, h, Real.sqrt_one]
  rw [if_neg one_ne_zero]
  simp only [div_one]

/-- C9: every updateSun call derives a unit-length sun direction from the
fixed elevation and azimuth angles, writes that same vector into the sky
sunPosition uniform and its normalization — equal to it, the vector being
unit length — into the water sunDirection uniform, so the two uniforms
coincide; any previously installed render target is disposed, and the
freshly baked target is installed as the scene environment. -/
theorem updateSun_consistent_and_disposes (s : SunUpdateState) :
    normSq (updateSun s).sun = 1 ∧
    (updateSun s).skySunPosition = (updateSun s).sun ∧
    (updateSun s).waterSunDirection = normalize (updateSun s).sun ∧
    (updateSun s).waterSunDirection = (updateSun s).skySunPosition ∧
    (∀ rt, s.renderTarget = some rt → rt ∈ (updateSun s).disposedTargets) ∧
    (updateSun s).renderTarget = some s.nextTargetId ∧
    (updateSun s).sceneEnvironment = some s.nextTargetId := by
  have hunit : normSq (updateSun s).sun = 1 :=
    normSq_setFromSphericalCoords_one (degToRad (90 - 2)) (degToRad 180)
  refine ⟨hunit, rfl, rfl, ?_, ?_, rfl, rfl⟩
  · show normalize (updateSun s).sun = (updateSun s).sun
    exact normalize_of_normSq_one _ hunit
  · intro rt hrt
    show rt ∈ (updateSun s).disposedTargets
    simp only [updateSun, hrt]
    exact List.mem_cons_self rt s.disposedTargets

/-- Concrete sun state with a previously installed render target. -/
def sampleSunState : SunUpdateState :=
  { sun := ⟨0, 0, 0⟩
    skySunPosition := ⟨0, 0, 0⟩
    waterSunDirection := ⟨0, 0, 0⟩
    renderTarget := some 7
    disposedTargets := []
    nextTargetId := 8
    sceneEnvironment := some 7 }

/-- Witness for C9: on a state whose installed render target is number 7,
updateSun disposes target 7. -/
theorem updateSun_consistent_and_disposes_witness :
    sampleSunState.renderTarget = some 7 ∧
    7 ∈ (updateSun sampleSunState).disposedTargets :=
  ⟨rfl, (updateSun_consistent_and_disposes sampleSunState).2.2.2.2.1 7 rfl⟩

end Ocean
